import Mathlib

/-!
Verification of the survey-agents shell (`src/python/console/survey_agents.py`)
against its design specification.

The module is a declarative wiring of five agent definitions plus one async
entry point.  The external agent runtime (`Runner.run`) is opaque; we model it
as a function parameter that, given an agent, the current shared state and the
user text, either returns a final output string or fails with an error message
(a raised exception).  The Python entry point catches every exception, so its
Lean embedding is a total function returning a pair (final shared state,
returned string).

The collaborator modules `agent_tools.py`, `models.py` and `tools.py` are not
part of the sources; the definitions that stand in for them are modelled from
the specification and say so in their doc comments.
-/

namespace SurveyAgents

/-- The five named tools of the tool surface (§4.2).  They live in
`agent_tools.py`; here only their identities are needed, since the agents
declare them by reference. -/
inductive ToolName where
  | list_surveys
  | create_survey
  | add_question
  | edit_question
  | delete_question
deriving DecidableEq

/-- Identities of the five agents defined in `survey_agents.py`, used to record
hand-off references between agent definitions. -/
inductive AgentId where
  | questionParser
  | surveyParser
  | surveyGenerator
  | surveyEditor
  | surveyTriage
deriving DecidableEq

/-- Tags for the two declared structured-output types; an agent either has one
of them as its `output_type` or produces plain text (`none`). -/
inductive OutputTypeTag where
  | questionParserOutput
  | surveyParserOutput
deriving DecidableEq

/-- A serialized field value of a structured-output record (the shapes used by
the two pydantic models: strings, integers, an optional string list, and a
string-keyed options mapping). -/
inductive FieldVal where
  | str (s : String)
  | int (n : Int)
  | optStrList (o : Option (List String))
  | dict (d : List (String × String))
deriving DecidableEq

/-- `QuestionParserOutput` (lines 13-17): the structured-output record for a
single parsed question.  Fields `text`, `question_type`,
`options : Optional[List[str]] = None`, `question_options : dict = {}`. -/
structure QuestionParserOutput where
  text : String
  question_type : String
  options : Option (List String) := none
  question_options : List (String × String) := []
deriving DecidableEq

/-- `SurveyParserOutput` (lines 20-24): the structured-output record for a
fully parsed survey.  Fields `survey_id`, `name`, `description`,
`question_count : int`. -/
structure SurveyParserOutput where
  survey_id : String
  name : String
  description : String
  question_count : Int
deriving DecidableEq

/-- Serialization of a `QuestionParserOutput` record as the external runtime
sees it: an ordered association of field names to field values, exactly the
pydantic field declarations of lines 14-17. -/
def QuestionParserOutput.toFields (o : QuestionParserOutput) : List (String × FieldVal) :=
  [("text", FieldVal.str o.text),
   ("question_type", FieldVal.str o.question_type),
   ("options", FieldVal.optStrList o.options),
   ("question_options", FieldVal.dict o.question_options)]

/-- Serialization of a `SurveyParserOutput` record as the external runtime
sees it: an ordered association of field names to field values, exactly the
pydantic field declarations of lines 21-24. -/
def SurveyParserOutput.toFields (o : SurveyParserOutput) : List (String × FieldVal) :=
  [("survey_id", FieldVal.str o.survey_id),
   ("name", FieldVal.str o.name),
   ("description", FieldVal.str o.description),
   ("question_count", FieldVal.int o.question_count)]

/-- An agent definition: a name, the tools it declares, the hand-offs it
declares, and its optional structured-output type.  The instruction prompt
text is free text interpreted only by the opaque external runtime (spec §1
places prompt wording out of scope) and is interpolated from `constants.py`,
which is not among the sources, so it is not modelled.  `tools` and `handoffs`
default to empty, as in the agent framework, when a definition omits them. -/
structure Agent where
  name : String
  tools : List ToolName := []
  handoffs : List AgentId := []
  output_type : Option OutputTypeTag := none

/-- `question_parser` (lines 26-73): no tools (the `tools=[...]` line is
commented out in the source), no hand-offs, structured output
`QuestionParserOutput`. -/
def question_parser_agent : Agent :=
  { name := "Question Parser",
    tools := [],
    handoffs := [],
    output_type := some OutputTypeTag.questionParserOutput }

/-- `survey_parser` (lines 75-94): hand-off to the question parser, tools
`create_survey` and `add_question`, structured output `SurveyParserOutput`. -/
def survey_parser_agent : Agent :=
  { name := "Survey Parser",
    tools := [ToolName.create_survey, ToolName.add_question],
    handoffs := [AgentId.questionParser],
    output_type := some OutputTypeTag.surveyParserOutput }

/-- `survey_generator` (lines 96-108): only a name and instructions; no tools,
no hand-offs, no structured output declared. -/
def survey_generator : Agent :=
  { name := "Survey Generator",
    tools := [],
    handoffs := [],
    output_type := none }

/-- `survey_editor` (lines 110-125): tools `edit_question` and
`delete_question`; no hand-offs, no structured output declared. -/
def survey_editor : Agent :=
  { name := "Survey Editor",
    tools := [ToolName.edit_question, ToolName.delete_question],
    handoffs := [],
    output_type := none }

/-- `survey_triage` (lines 127-143): tool `list_surveys`; hand-offs to the
generator, the editor and the parser, in that order. -/
def survey_triage : Agent :=
  { name := "Survey Triage",
    tools := [ToolName.list_surveys],
    handoffs := [AgentId.surveyGenerator, AgentId.surveyEditor, AgentId.surveyParser],
    output_type := none }

/-- The union (as a concatenation) of the tools declared on the five agents,
in definition order. -/
def declared_tools : List ToolName :=
  question_parser_agent.tools ++ survey_parser_agent.tools ++
  survey_generator.tools ++ survey_editor.tools ++ survey_triage.tools

/-- Modelled from the spec: `models.py` is not among the sources.  §3 calls
`SurveyContext` "a bundle of ambient information (e.g. current user/session)
passed through to tool calls; opaque beyond being attached to a request", so
it is modelled as an opaque record carrying a session datum. -/
structure SurveyContext where
  session : String
deriving DecidableEq

/-- Modelled from the spec: `tools.py` is not among the sources.
`SurveyTools` is the "storage/tooling collaborator" of §4.2, opaque at this
layer; only its identity matters to the shell, so it is modelled as an opaque
tagged handle. -/
structure SurveyTools where
  tag : Nat
deriving DecidableEq

/-- Modelled from the spec: the process-wide shared state of §4.2/§5.
`tools_handle` is the "single shared, process-wide handle to the
storage/tooling collaborator"; `rest` abstracts every other piece of process
state, so that frame conditions (what `set_tools` and the entry point leave
untouched) are expressible. -/
structure GlobalState where
  tools_handle : Option SurveyTools
  rest : Nat
deriving DecidableEq

/-- Modelled from the spec: `agent_tools.set_tools` is not among the sources.
§4.2: the collaborator is "installed once per request via a setup step
(`set_tools`)" into the shared handle; nothing else of the process state is
touched. -/
def set_tools (t : SurveyTools) (st : GlobalState) : GlobalState :=
  { st with tools_handle := some t }

/-- The opaque external agent runtime (`Runner.run`): given the agent to run,
the shared state in effect at the call and the user text, it either produces
the final output text or raises, modelled as `Except`.  The `trace(...)`
context manager wrapping the call is observability-only and not modelled. -/
abbrev Runtime := Agent → GlobalState → String → Except String String

/-- `handle_survey_request` (lines 145-156): installs the tools collaborator
into the shared handle via `set_tools`, then runs the triage agent on the
user's input through the external runtime and returns its final output; any
exception raised inside the `try` block is caught and rendered as
`"Error handling request: "` followed by the exception text.  The function is
total (it returns a string on every path); the resulting shared state is
returned alongside the string. -/
def handle_survey_request (runner : Runtime) (user_input : String)
    (tools : SurveyTools) (context : SurveyContext) (st : GlobalState) :
    GlobalState × String :=
  let st1 := set_tools tools st
  match runner survey_triage st1 user_input with
  | Except.ok final_output => (st1, final_output)
  | Except.error e => (st1, "Error handling request: " ++ e)

/-- Modelled from the spec: `Question` of §3 (`models.py` is not among the
sources): identity unique within its survey, text, a question-type label, an
optional ordered sequence of option strings, and a mapping of question-level
configuration options. -/
structure Question where
  id : Nat
  text : String
  question_type : String
  options : Option (List String)
  question_options : List (String × String)
deriving DecidableEq

/-- Modelled from the spec: `Survey` of §3 (`models.py` is not among the
sources): identity, name, description, ordered sequence of questions. -/
structure Survey where
  id : Nat
  name : String
  description : String
  questions : List Question
deriving DecidableEq

/-- Modelled from the spec: the `delete_question` tool of §4.2
(`agent_tools.py` is not among the sources).  Input `survey_id, question_id`;
result a confirmation (here the updated store); failures `"survey not found"`
and `"question not found"`.  On failure the store is not touched (the error
carries no state). -/
def delete_question (store : List Survey) (survey_id question_id : Nat) :
    Except String (List Survey) :=
  match store.find? (fun s => s.id == survey_id) with
  | none => Except.error "survey not found"
  | some s =>
    if s.questions.any (fun q => q.id == question_id) then
      Except.ok (store.map (fun s2 =>
        if s2.id == survey_id then
          { s2 with questions := s2.questions.filter (fun q => q.id != question_id) }
        else s2))
    else Except.error "question not found"

/-- C1: if the delegated external-runtime call raises, `handle_survey_request`
returns (rather than raises — the embedding is total) a string equal to the
fixed error marker `"Error handling request: "` followed by the original
failure text; in particular the returned string contains both the marker and
the failure text. -/
theorem handle_survey_request_error_string
    (runner : Runtime) (user_input : String) (tools : SurveyTools)
    (context : SurveyContext) (st : GlobalState) (e : String)
    (h : runner survey_triage (set_tools tools st) user_input = Except.error e) :
    (handle_survey_request runner user_input tools context st).2
      = "Error handling request: " ++ e
    ∧ (∃ p q, (handle_survey_request runner user_input tools context st).2
        = p ++ "Error handling request: " ++ q)
    ∧ (∃ p q, (handle_survey_request runner user_input tools context st).2
        = p ++ e ++ q) := by
  refine ⟨?_, ⟨"", e, ?_⟩, ⟨"Error handling request: ", "", ?_⟩⟩ <;>
    simp [handle_survey_request, h]

/-- Witness for C1 at a concrete raising runtime. -/
theorem handle_survey_request_error_string_witness :
    (handle_survey_request (fun _ _ _ => Except.error "boom") "hi"
        ⟨0⟩ ⟨"alice"⟩ ⟨none, 0⟩).2
      = "Error handling request: " ++ "boom"
    ∧ (∃ p q, (handle_survey_request (fun _ _ _ => Except.error "boom") "hi"
        ⟨0⟩ ⟨"alice"⟩ ⟨none, 0⟩).2
        = p ++ "Error handling request: " ++ q)
    ∧ (∃ p q, (handle_survey_request (fun _ _ _ => Except.error "boom") "hi"
        ⟨0⟩ ⟨"alice"⟩ ⟨none, 0⟩).2
        = p ++ "boom" ++ q) :=
  handle_survey_request_error_string _ "hi" ⟨0⟩ ⟨"alice"⟩ ⟨none, 0⟩ "boom" rfl

/-- C2 counterexample: the structured-output records do not carry fields
literally named `id`, `type` or `options-map` (as the §3 wording would have
them); the actual field names are `survey_id`, `question_type` and
`question_options`. -/
theorem output_record_field_names_counterexample :
    "id" ∉ (SurveyParserOutput.toFields ⟨"s1", "n", "d", 0⟩).map Prod.fst
    ∧ "type" ∉ (QuestionParserOutput.toFields ⟨"t", "RADIO", none, []⟩).map Prod.fst
    ∧ "options-map" ∉ (QuestionParserOutput.toFields ⟨"t", "RADIO", none, []⟩).map Prod.fst := by
  refine ⟨?_, ?_, ?_⟩ <;> decide

/-- C2 (amended): the survey record consists of exactly the four fields
`survey_id`, `name`, `description`, `question_count`, and the question record
of exactly the four fields `text`, `question_type`, `options`,
`question_options`, in declaration order. -/
theorem output_record_field_names :
    (∀ o : SurveyParserOutput, (SurveyParserOutput.toFields o).map Prod.fst
        = ["survey_id", "name", "description", "question_count"])
    ∧ (∀ o : QuestionParserOutput, (QuestionParserOutput.toFields o).map Prod.fst
        = ["text", "question_type", "options", "question_options"]) :=
  ⟨fun _ => rfl, fun _ => rfl⟩

/-- C3: `set_tools` installs the given collaborator into the shared handle,
and the external runtime is only ever consulted at the state produced by that
installation: two runtimes that agree on every state with the handle
installed give `handle_survey_request` identical results, so the runtime is
never called with the handle uninstalled for the request. -/
theorem set_tools_before_runtime
    (r1 r2 : Runtime) (user_input : String) (tools : SurveyTools)
    (context : SurveyContext) (st : GlobalState)
    (h : ∀ a s v, s.tools_handle = some tools → r1 a s v = r2 a s v) :
    (set_tools tools st).tools_handle = some tools
    ∧ handle_survey_request r1 user_input tools context st
        = handle_survey_request r2 user_input tools context st := by
  refine ⟨rfl, ?_⟩
  simp only [handle_survey_request]
  rw [h survey_triage (set_tools tools st) user_input rfl]

/-- Witness for C3: a runtime that answers unconditionally and one that
answers only when the handle is installed agree on the entry point. -/
theorem set_tools_before_runtime_witness :
    (set_tools ⟨7⟩ ⟨none, 0⟩).tools_handle = some ⟨7⟩
    ∧ handle_survey_request (fun _ _ _ => Except.ok "A") "hi" ⟨7⟩ ⟨"alice"⟩ ⟨none, 0⟩
        = handle_survey_request
            (fun _ s _ =>
              if s.tools_handle = some ⟨7⟩ then Except.ok "A"
              else Except.error "uninstalled")
            "hi" ⟨7⟩ ⟨"alice"⟩ ⟨none, 0⟩ :=
  set_tools_before_runtime _ _ "hi" ⟨7⟩ ⟨"alice"⟩ ⟨none, 0⟩
    (fun _ s _ hs => by simp [hs])

/-- C4: on the non-raising path the returned string is exactly the external
runtime's final output for the triage agent applied to the unmodified user
input; the entry point contributes nothing else (no parsing or routing of the
user text). -/
theorem handle_survey_request_success_path
    (runner : Runtime) (user_input : String) (tools : SurveyTools)
    (context : SurveyContext) (st : GlobalState) (out : String)
    (h : runner survey_triage (set_tools tools st) user_input = Except.ok out) :
    handle_survey_request runner user_input tools context st
      = (set_tools tools st, out) := by
  simp [handle_survey_request, h]

/-- Witness for C4 at a concrete succeeding runtime. -/
theorem handle_survey_request_success_path_witness :
    handle_survey_request (fun _ _ _ => Except.ok "done") "hi" ⟨0⟩ ⟨"alice"⟩ ⟨none, 0⟩
      = (set_tools ⟨0⟩ ⟨none, 0⟩, "done") :=
  handle_survey_request_success_path _ "hi" ⟨0⟩ ⟨"alice"⟩ ⟨none, 0⟩ "done" rfl

/-- C5 counterexample: the generator and the editor declare no hand-off to
the question parser (their hand-off lists are empty), so the claimed edges
generator → question_parser and editor → question_parser do not exist. -/
theorem handoff_graph_counterexample :
    AgentId.questionParser ∉ survey_generator.handoffs
    ∧ AgentId.questionParser ∉ survey_editor.handoffs := by
  refine ⟨?_, ?_⟩ <;> decide

/-- C5 (amended): the declared hand-off graph is exactly triage →
{generator, editor, parser} and parser → question_parser; the generator, the
editor and the question parser declare no hand-offs. -/
theorem handoff_graph :
    survey_triage.handoffs
        = [AgentId.surveyGenerator, AgentId.surveyEditor, AgentId.surveyParser]
    ∧ survey_parser_agent.handoffs = [AgentId.questionParser]
    ∧ survey_generator.handoffs = []
    ∧ survey_editor.handoffs = []
    ∧ question_parser_agent.handoffs = [] :=
  ⟨rfl, rfl, rfl, rfl, rfl⟩

/-- C6: the union of the tools declared on the five agents is exactly the
five named tools of §4.2. -/
theorem declared_tools_exactly_five (t : ToolName) :
    t ∈ declared_tools
      ↔ t ∈ [ToolName.list_surveys, ToolName.create_survey, ToolName.add_question,
             ToolName.edit_question, ToolName.delete_question] := by
  cases t <;> decide

/-- C7 counterexample: two runs differing only in the `SurveyContext`
argument (distinct contexts, everything else equal) produce identical
results, because the entry point never reads the context. -/
theorem context_ignored_counterexample :
    SurveyContext.mk "alice" ≠ SurveyContext.mk "bob"
    ∧ handle_survey_request (fun _ _ _ => Except.ok "done") "hi" ⟨0⟩
          (SurveyContext.mk "alice") ⟨none, 0⟩
        = handle_survey_request (fun _ _ _ => Except.ok "done") "hi" ⟨0⟩
          (SurveyContext.mk "bob") ⟨none, 0⟩ :=
  ⟨by decide, rfl⟩

/-- C7 (amended): `handle_survey_request` accepts the `SurveyContext`
argument but does not pass it to the runtime or to the shared state; its
result is independent of the context, so the request's behaviour cannot
depend on the supplied context. -/
theorem context_ignored (runner : Runtime) (user_input : String)
    (tools : SurveyTools) (c1 c2 : SurveyContext) (st : GlobalState) :
    handle_survey_request runner user_input tools c1 st
      = handle_survey_request runner user_input tools c2 st := rfl

/-- C8: on both the success and the error path, the shared state produced by
`handle_survey_request` is exactly `set_tools tools st`: the handle holds the
given collaborator, the remainder of the process state is untouched, and the
handle is not written a second time. -/
theorem handle_survey_request_frame (runner : Runtime) (user_input : String)
    (tools : SurveyTools) (context : SurveyContext) (st : GlobalState) :
    (handle_survey_request runner user_input tools context st).1 = set_tools tools st
    ∧ (set_tools tools st).tools_handle = some tools
    ∧ (set_tools tools st).rest = st.rest := by
  refine ⟨?_, rfl, rfl⟩
  rcases hr : runner survey_triage (set_tools tools st) user_input with e | o <;>
    simp [handle_survey_request, hr]

/-- C9: if `delete_question` succeeds, a second `delete_question` with the
same survey id and question id fails with `"question not found"` (and, the
failure being an error value, leaves the store untouched). -/
theorem delete_question_twice (store store2 : List Survey)
    (survey_id question_id : Nat)
    (h : delete_question store survey_id question_id = Except.ok store2) :
    delete_question store2 survey_id question_id
      = Except.error "question not found" := by
  unfold delete_question at h
  cases hf : store.find? (fun s => s.id == survey_id) with
  | none => simp [hf] at h
  | some s =>
    simp only [hf] at h
    cases hq : s.questions.any (fun q => q.id == question_id) with
    | false => simp [hq] at h
    | true =>
      simp only [hq, if_true] at h
      have hs2 : store2 = store.map (fun s2 =>
          if s2.id == survey_id then
            { s2 with questions := s2.questions.filter (fun q => q.id != question_id) }
          else s2) := by
        cases h
        rfl
      subst hs2
      have hsid : (s.id == survey_id) = true :=
        List.find?_some (p := fun s2 : Survey => s2.id == survey_id) hf
      have hfind2 : (store.map (fun s2 =>
          if s2.id == survey_id then
            { s2 with questions := s2.questions.filter (fun q => q.id != question_id) }
          else s2)).find? (fun s3 => s3.id == survey_id)
          = some { s with questions := s.questions.filter (fun q => q.id != question_id) } := by
        rw [List.find?_map]
        have hcomp : ((fun s3 : Survey => s3.id == survey_id) ∘ (fun s2 =>
            if s2.id == survey_id then
              { s2 with questions := s2.questions.filter (fun q => q.id != question_id) }
            else s2))
            = (fun s2 : Survey => s2.id == survey_id) := by
          funext s2
          by_cases h2 : (s2.id == survey_id) = true
          · simp [Function.comp, h2]
          · simp [Function.comp, h2]
        rw [hcomp, hf]
        have hsid2 : s.id = survey_id := by simpa using hsid
        simp [hsid2]
      unfold delete_question
      rw [hfind2]
      have hany : (s.questions.filter (fun q => q.id != question_id)).any
          (fun q => q.id == question_id) = false := by
        rw [List.any_filter]
        rw [List.any_eq_false]
        intro q hqmem
        show ¬((!(q.id == question_id) && (q.id == question_id)) = true)
        rw [Bool.not_and_self]
        simp
      simp [hany]

/-- Witness for C9: deleting the only question of a survey and deleting it
again fails with "question not found". -/
theorem delete_question_twice_witness :
    delete_question
      [{ id := 1, name := "Customer Satisfaction", description := "Q3 feedback",
         questions := [] }] 1 1
      = Except.error "question not found" :=
  delete_question_twice
    [{ id := 1, name := "Customer Satisfaction", description := "Q3 feedback",
       questions := [{ id := 1, text := "Did you find our website easy to navigate?",
                       question_type := "RADIO", options := some ["Yes", "No"],
                       question_options := [("required", "true")] }] }]
    _ 1 1 rfl

/-- C10: the generator is declared with no tools and no hand-offs, so the
external runtime can neither invoke a tool on its behalf nor let it delegate
to another agent. -/
theorem survey_generator_no_tools_no_handoffs :
    survey_generator.tools = [] ∧ survey_generator.handoffs = [] :=
  ⟨rfl, rfl⟩

end SurveyAgents
